import Mathlib

/-!
Verification of `packages/near-api-js/lib/account.d.ts` (near-api-js).

The source file is a TypeScript *declaration* file: it contains only type
declarations and ambient (bodiless) method signatures for the `Account`
class.  We embed the declaration surface as a small abstract syntax
(`TsType`, `Param`, `Member`, `Decl`) and transcribe the file, declaration
by declaration, into `accountDts`.  Claims about the declaration surface
(return types, readonly flags, which names are declared) become decidable
computations over this transcription.

Behavioral claims concern the implementation of `Account`, which is not in
the repository snapshot (only the `.d.ts` interface is); those parts are
modelled from the specification text and are marked `Modelled from the
spec:` on their definitions.
-/

/-- A TypeScript type expression, covering exactly the type forms that occur
in `account.d.ts`. -/
inductive TsType where
  /-- A named type reference such as `string`, `Connection`, `BN`. -/
  | named (name : String)
  /-- `Promise<t>` -/
  | promise (t : TsType)
  /-- `t[]` / `Array<t>` -/
  | array (t : TsType)
  /-- `a | b` -/
  | union (a b : TsType)
  /-- The two-element tuple type `[a, b]`. -/
  | pair (a b : TsType)
  /-- A one-field anonymous object type. -/
  | obj1 (f1 : String) (t1 : TsType)
  /-- A two-field anonymous object type. -/
  | obj2 (f1 : String) (t1 : TsType) (f2 : String) (t2 : TsType)
  /-- An index-signature object type `[key: k]: v`. -/
  | indexSig (keyT valT : TsType)
  /-- A one-argument function type `(x: a) => r`. -/
  | fn (arg ret : TsType)
  /-- The `any` type. -/
  | anyT
deriving DecidableEq, Repr

/-- How a parameter is bound: a plain identifier, or an object
destructuring pattern binding the listed property names. -/
inductive Binding where
  | ident (name : String)
  | objPattern (names : List String)
deriving DecidableEq, Repr

/-- A declared parameter (of a method, constructor, or interface field). -/
structure Param where
  binding : Binding
  type : TsType
  optional : Bool := false
deriving DecidableEq, Repr

/-- Member visibility as written in the declaration file. -/
inductive Visibility where
  | pub
  | prot
  | priv
deriving DecidableEq, Repr

/-- A member of a `declare class` body. -/
inductive Member where
  /-- A property declaration, e.g. `readonly connection: Connection;`. -/
  | field (name : String) (type : TsType) (readonly : Bool) (vis : Visibility)
  /-- A method signature.  `hasBody` records whether an implementation body
  is present at this declaration (always `false` in a `.d.ts`). -/
  | method (name : String) (params : List Param) (ret : TsType)
      (vis : Visibility) (hasBody : Bool)
  /-- The constructor signature. -/
  | ctor (params : List Param)
  /-- A private member whose signature is erased in the declaration file,
  e.g. `private printLogs;`. -/
  | privateUntyped (name : String)
deriving DecidableEq, Repr

/-- A declared interface field: name, type, optionality. -/
structure IfaceField where
  name : String
  type : TsType
  optional : Bool := false
deriving DecidableEq, Repr

/-- A top-level declaration of the file. -/
inductive Decl where
  /-- `import { names } from mod` -/
  | importDecl (names : List String) (mod : String)
  /-- `interface name extends base? { fields }` -/
  | interfaceDecl (name : String) (extends_ : Option String)
      (fields : List IfaceField) (exported : Bool)
  /-- `declare class name { members }` -/
  | classDecl (name : String) (members : List Member) (exported : Bool)
deriving DecidableEq, Repr

namespace AccountDts

open TsType Binding Visibility

/-- Shorthand for a named type reference. -/
def n (s : String) : TsType := TsType.named s

/-- Shorthand for a plain identifier parameter. -/
def p (name : String) (t : TsType) : Param :=
  { binding := Binding.ident name, type := t }

/-- Shorthand for an optional identifier parameter. -/
def popt (name : String) (t : TsType) : Param :=
  { binding := Binding.ident name, type := t, optional := true }

/-- Shorthand for a required interface field. -/
def f (name : String) (t : TsType) : IfaceField := { name := name, type := t }

/-- Shorthand for an optional interface field. -/
def fopt (name : String) (t : TsType) : IfaceField :=
  { name := name, type := t, optional := true }

/-- `interface AccountBalance` (lines 8-13 of `account.d.ts`). -/
def accountBalanceDecl : Decl :=
  .interfaceDecl "AccountBalance" none
    [f "total" (n "string"), f "stateStaked" (n "string"),
     f "staked" (n "string"), f "available" (n "string")] true

/-- `interface AccountAuthorizedApp` (lines 14-18). -/
def accountAuthorizedAppDecl : Decl :=
  .interfaceDecl "AccountAuthorizedApp" none
    [f "contractId" (n "string"), f "amount" (n "string"),
     f "publicKey" (n "string")] true

/-- `interface SignAndSendTransactionOptions` (lines 22-36). -/
def signAndSendTransactionOptionsDecl : Decl :=
  .interfaceDecl "SignAndSendTransactionOptions" none
    [f "receiverId" (n "string"),
     f "actions" (.array (n "Action")),
     fopt "walletMeta" (n "string"),
     fopt "walletCallbackUrl" (n "string"),
     fopt "returnError" (n "boolean")] true

/-- `interface FunctionCallOptions` (lines 41-62). -/
def functionCallOptionsDecl : Decl :=
  .interfaceDecl "FunctionCallOptions" none
    [f "contractId" (n "string"),
     f "methodName" (n "string"),
     fopt "args" (n "object"),
     fopt "gas" (n "BN"),
     fopt "attachedDeposit" (n "BN"),
     fopt "stringify" (.fn .anyT (n "Buffer")),
     fopt "jsContract" (n "boolean")] true

/-- `interface ChangeFunctionCallOptions extends FunctionCallOptions`
(lines 63-74). -/
def changeFunctionCallOptionsDecl : Decl :=
  .interfaceDecl "ChangeFunctionCallOptions" (some "FunctionCallOptions")
    [fopt "walletMeta" (n "string"),
     fopt "walletCallbackUrl" (n "string")] true

/-- `interface ViewFunctionCallOptions extends FunctionCallOptions`
(lines 75-78). -/
def viewFunctionCallOptionsDecl : Decl :=
  .interfaceDecl "ViewFunctionCallOptions" (some "FunctionCallOptions")
    [fopt "parse" (.fn (n "Uint8Array") .anyT),
     fopt "blockQuery" (n "BlockReference")] true

/-- `interface StakedBalance` (lines 79-83, not exported). -/
def stakedBalanceDecl : Decl :=
  .interfaceDecl "StakedBalance" none
    [f "validatorId" (n "string"),
     fopt "amount" (n "string"),
     fopt "error" (n "string")] false

/-- `interface ActiveDelegatedStakeBalance` (lines 84-88, not exported). -/
def activeDelegatedStakeBalanceDecl : Decl :=
  .interfaceDecl "ActiveDelegatedStakeBalance" none
    [f "stakedValidators" (.array (n "StakedBalance")),
     f "failedValidators" (.array (n "StakedBalance")),
     f "total" (.union (n "BN") (n "string"))] false

/-- The members of `declare class Account` (lines 96-244), in source
order. -/
def accountMembers : List Member :=
  [ .field "connection" (n "Connection") true .pub,
    .field "accountId" (n "string") true .pub,
    .ctor [p "connection" (n "Connection"), p "accountId" (n "string")],
    .method "state" [] (.promise (n "AccountView")) .pub false,
    .privateUntyped "printLogsAndFailures",
    .privateUntyped "printLogs",
    .method "signTransaction"
      [p "receiverId" (n "string"), p "actions" (.array (n "Action"))]
      (.promise (.pair (n "Uint8Array") (n "SignedTransaction")))
      .prot false,
    .method "signAndSendTransaction"
      [{ binding := Binding.objPattern ["receiverId", "actions", "returnError"],
         type := n "SignAndSendTransactionOptions" }]
      (.promise (n "FinalExecutionOutcome")) .pub false,
    .field "accessKeyByPublicKeyCache"
      (.indexSig (n "string") (n "AccessKeyView")) false .pub,
    .method "findAccessKey"
      [p "receiverId" (n "string"), p "actions" (.array (n "Action"))]
      (.promise (.obj2 "publicKey" (n "PublicKey")
        "accessKey" (n "AccessKeyView"))) .pub false,
    .method "createAndDeployContract"
      [p "contractId" (n "string"),
       p "publicKey" (.union (n "string") (n "PublicKey")),
       p "data" (n "Uint8Array"), p "amount" (n "BN")]
      (.promise (n "Account")) .pub false,
    .method "sendMoney"
      [p "receiverId" (n "string"), p "amount" (n "BN")]
      (.promise (n "FinalExecutionOutcome")) .pub false,
    .method "createAccount"
      [p "newAccountId" (n "string"),
       p "publicKey" (.union (n "string") (n "PublicKey")),
       p "amount" (n "BN")]
      (.promise (n "FinalExecutionOutcome")) .pub false,
    .method "deleteAccount"
      [p "beneficiaryId" (n "string")]
      (.promise (n "FinalExecutionOutcome")) .pub false,
    .method "deployContract"
      [p "data" (n "Uint8Array")]
      (.promise (n "FinalExecutionOutcome")) .pub false,
    .privateUntyped "encodeJSContractArgs",
    .method "functionCall"
      [{ binding := Binding.objPattern
           ["contractId", "methodName", "args", "gas", "attachedDeposit",
            "walletMeta", "walletCallbackUrl", "stringify", "jsContract"],
         type := n "ChangeFunctionCallOptions" }]
      (.promise (n "FinalExecutionOutcome")) .pub false,
    .method "addKey"
      [p "publicKey" (.union (n "string") (n "PublicKey")),
       popt "contractId" (n "string"),
       popt "methodNames" (.union (n "string") (.array (n "string"))),
       popt "amount" (n "BN")]
      (.promise (n "FinalExecutionOutcome")) .pub false,
    .method "deleteKey"
      [p "publicKey" (.union (n "string") (n "PublicKey"))]
      (.promise (n "FinalExecutionOutcome")) .pub false,
    .method "stake"
      [p "publicKey" (.union (n "string") (n "PublicKey")),
       p "amount" (n "BN")]
      (.promise (n "FinalExecutionOutcome")) .pub false,
    .privateUntyped "validateArgs",
    .method "viewFunction"
      [{ binding := Binding.objPattern
           ["contractId", "methodName", "args", "parse", "stringify",
            "jsContract", "blockQuery"],
         type := n "ViewFunctionCallOptions" }]
      (.promise .anyT) .pub false,
    .method "viewState"
      [p "prefix" (.union (n "string") (n "Uint8Array")),
       popt "blockQuery" (n "BlockReference")]
      (.promise (.array (.obj2 "key" (n "Buffer") "value" (n "Buffer"))))
      .pub false,
    .method "getAccessKeys" []
      (.promise (.array (n "AccessKeyInfoView"))) .pub false,
    .method "getAccountDetails" []
      (.promise (.obj1 "authorizedApps" (.array (n "AccountAuthorizedApp"))))
      .pub false,
    .method "getAccountBalance" []
      (.promise (n "AccountBalance")) .pub false,
    .method "getActiveDelegatedStakeBalance" []
      (.promise (n "ActiveDelegatedStakeBalance")) .pub false ]

/-- `declare class Account` (lines 96-244). -/
def accountClassDecl : Decl := .classDecl "Account" accountMembers true

/-- The whole of `account.d.ts`: its import lines followed by its
declarations, in source order. -/
def accountDts : List Decl :=
  [ .importDecl ["BN"] "bn.js",
    .importDecl ["Action", "SignedTransaction"] "./transaction",
    .importDecl ["FinalExecutionOutcome"] "./providers",
    .importDecl ["AccountView", "AccessKeyView", "AccessKeyInfoView",
      "BlockReference"] "./providers/provider",
    .importDecl ["Connection"] "./connection",
    .importDecl ["PublicKey"] "./utils/key_pair",
    accountBalanceDecl,
    accountAuthorizedAppDecl,
    signAndSendTransactionOptionsDecl,
    functionCallOptionsDecl,
    changeFunctionCallOptionsDecl,
    viewFunctionCallOptionsDecl,
    stakedBalanceDecl,
    activeDelegatedStakeBalanceDecl,
    accountClassDecl ]

end AccountDts

/-! ### Predicates over the declaration surface -/

/-- The name of a method member, when the member is a method signature. -/
def Member.methodName : Member → Option String
  | .method name _ _ _ _ => some name
  | _ => none

/-- The parameter list of a method member (empty for non-methods). -/
def Member.methodParams : Member → List Param
  | .method _ params _ _ _ => params
  | _ => []

/-- Whether a member signature comes with an implementation body. -/
def Member.declaresBody : Member → Bool
  | .method _ _ _ _ hasBody => hasBody
  | _ => false

/-- The declared method names of a member list, in source order. -/
def methodNames (ms : List Member) : List String :=
  ms.filterMap Member.methodName

/-- Look up a method member by name. -/
def methodByName (ms : List Member) (name : String) : Option Member :=
  ms.find? fun m => m.methodName == some name

/-- The declared return type of the method `name`, when it exists. -/
def methodRet (ms : List Member) (name : String) : Option TsType :=
  match methodByName ms name with
  | some (.method _ _ ret _ _) => some ret
  | _ => none

/-- Whether the method `name` is declared and its return type is a
`Promise<...>`. -/
def methodReturnsPromise (ms : List Member) (name : String) : Bool :=
  match methodRet ms name with
  | some (.promise _) => true
  | _ => false

/-- Names of the class declared by a `Decl`, when it is a class. -/
def Decl.className : Decl → Option String
  | .classDecl name _ _ => some name
  | _ => none

/-- The member list of a class declaration (empty otherwise). -/
def Decl.classMembers : Decl → List Member
  | .classDecl _ ms _ => ms
  | _ => []

/-- The field list of an interface declaration (empty otherwise). -/
def Decl.ifaceFields : Decl → List IfaceField
  | .interfaceDecl _ _ fields _ => fields
  | _ => []

/-- The declared name of an interface or class (none for imports). -/
def Decl.declName : Decl → Option String
  | .interfaceDecl name _ _ _ => some name
  | .classDecl name _ _ => some name
  | .importDecl _ _ => none

/-- All class declarations of a file. -/
def classDecls (file : List Decl) : List Decl :=
  file.filter fun d => d.className.isSome

/-- Whether any declaration of the file carries an implementation body. -/
def fileHasImplementation (file : List Decl) : Bool :=
  file.any fun d => d.classMembers.any Member.declaresBody

/-- Look up an interface declaration by name. -/
def ifaceByName (file : List Decl) (name : String) : Option Decl :=
  file.find? fun d => match d with
    | .interfaceDecl nm _ _ _ => nm == name
    | _ => false

/-- Whether the interface `iname` declares a field named `fname`. -/
def ifaceHasField (file : List Decl) (iname fname : String) : Bool :=
  match ifaceByName file iname with
  | some d => d.ifaceFields.any fun fld => fld.name == fname
  | none => false

/-- Names that, in TypeScript client libraries, denote a cancellation or
concurrency-coordination parameter. -/
def cancellationNames : List String :=
  ["signal", "abortSignal", "cancellationToken", "cancelToken", "mutex",
   "semaphore", "lock"]

/-- Type names that denote a cancellation or concurrency-coordination
primitive. -/
def cancellationTypeNames : List String :=
  ["AbortSignal", "AbortController", "CancellationToken", "CancelToken",
   "Mutex", "Semaphore"]

/-- Whether a type expression mentions the named type anywhere inside it. -/
def TsType.mentions : TsType → String → Bool
  | .named nm, s => nm == s
  | .promise t, s => t.mentions s
  | .array t, s => t.mentions s
  | .union a b, s => a.mentions s || b.mentions s
  | .pair a b, s => a.mentions s || b.mentions s
  | .obj1 _ t1, s => t1.mentions s
  | .obj2 _ t1 _ t2, s => t1.mentions s || t2.mentions s
  | .indexSig k v, s => k.mentions s || v.mentions s
  | .fn a r, s => a.mentions s || r.mentions s
  | .anyT, _ => false

/-- Whether a parameter is a cancellation or concurrency-coordination
parameter: bound to a cancellation name, or typed by a cancellation
primitive. -/
def Param.isCancellation (pa : Param) : Bool :=
  (match pa.binding with
   | .ident nm => cancellationNames.contains nm
   | .objPattern nms => nms.any fun nm => cancellationNames.contains nm)
  || cancellationTypeNames.any fun tn => pa.type.mentions tn

/-- A flat data type: a named type, an array of flat data, or a union of
flat data — no function types, no nested anonymous objects. -/
def TsType.isFlatData : TsType → Bool
  | .named _ => true
  | .array t => t.isFlatData
  | .union a b => a.isFlatData && b.isFlatData
  | _ => false

/-- A flat value record: an interface with no base type, every field of
which is flat data (so no callbacks, no behavior, only field containers). -/
def isFlatValueRecord (file : List Decl) (name : String) : Bool :=
  match ifaceByName file name with
  | some (.interfaceDecl _ none fields _) =>
      fields.all fun fld => fld.type.isFlatData
  | _ => false

/-- Whether the first list occurs as a contiguous run inside the second. -/
def charListHas (needle : List Char) : List Char → Bool
  | [] => needle.isEmpty
  | c :: t => needle.isPrefixOf (c :: t) || charListHas needle t

/-- Whether a declared name mentions errors (substring check for the word
`error`, lowercase or capitalized). -/
def nameMentionsError (s : String) : Bool :=
  charListHas "error".data s.data || charListHas "Error".data s.data

/-- Claim C4 as stated: no type declared in the file encodes an error case
or error-handling configuration, i.e. no declared interface field or class
field has a name that mentions errors. -/
def noTypeEncodesError (file : List Decl) : Bool :=
  file.all fun d =>
    (d.ifaceFields.all fun fld => !nameMentionsError fld.name)
    && (d.classMembers.all fun m => match m with
        | .field nm _ _ _ => !nameMentionsError nm
        | _ => true)

/-- Whether the file declares a dedicated error type: an interface or
class whose own name mentions errors. -/
def declaresErrorTaxonomy (file : List Decl) : Bool :=
  file.any fun d => match d.declName with
    | some nm => nameMentionsError nm
    | none => false

/-- The mutable (non-`readonly`) declared fields of a member list. -/
def mutableFieldNames (ms : List Member) : List String :=
  ms.filterMap fun m => match m with
    | .field nm _ false _ => some nm
    | _ => none

/-- Whether the member list declares a `readonly` field `nm` of type `t`. -/
def hasReadonlyField (ms : List Member) (nm : String) (t : TsType) : Bool :=
  ms.any fun m => match m with
    | .field nm' t' true _ => nm' == nm && t' == t
    | _ => false

/-- The constructor parameter lists declared by a member list. -/
def ctorParams (ms : List Member) : List (List Param) :=
  ms.filterMap fun m => match m with
    | .ctor params => some params
    | _ => none

/-! ### Spec-modelled semantics

The repository snapshot contains only the declaration file; the `Account`
implementation itself is absent.  The following model is built from the
specification text: "every operation is a thin pass-through to a JSON-RPC
provider, with light local bookkeeping (an access-key cache, arithmetic on
returned balances)", the constructor stores an externally supplied
connection and account id, and `findAccessKey`'s `receiverId`/`actions`
parameters are "currently unused" per the declaration's doc comment.
External collaborator types (provider views, keys, transactions) are
opaque carriers. -/

/-- Modelled from the spec: an opaque big number (`bn.js`), carried as an
integer. -/
structure BN where
  val : Int
deriving DecidableEq, Repr

/-- Modelled from the spec: an opaque public key from the external key-pair
utilities. -/
structure PublicKey where
  keyData : String
deriving DecidableEq, Repr

/-- Modelled from the spec: an opaque transaction action from the external
transaction module. -/
structure TxAction where
  kind : String
deriving DecidableEq, Repr

/-- Modelled from the spec: an opaque signed transaction produced by the
external signer. -/
structure SignedTransaction where
  bytes : List Nat
deriving DecidableEq, Repr

/-- Modelled from the spec: an opaque execution outcome returned by the
RPC provider. -/
structure FinalExecutionOutcome where
  status : String
  logs : List String
deriving DecidableEq, Repr

/-- Modelled from the spec: the permission of an access key as reported by
the provider. -/
inductive Permission where
  | fullAccess
  | functionCall (receiverId : String) (allowance : Int)
deriving DecidableEq, Repr

/-- Modelled from the spec: an access-key view returned by the provider. -/
structure AccessKeyView where
  nonce : Nat
  permission : Permission
deriving DecidableEq, Repr

/-- Modelled from the spec: the account view returned by the
`view_account` RPC query. -/
structure AccountView where
  amount : Int
  locked : Int
  storageUsage : Int
  codeHash : String
deriving DecidableEq, Repr

/-- Modelled from the spec: the external JSON-RPC provider, as response
oracles — the file under verification only delegates to it. -/
structure Provider where
  viewAccount : String → AccountView
  viewAccessKey : String → PublicKey → Option AccessKeyView
  viewAccessKeyList : String → List (PublicKey × AccessKeyView)
  sendTransaction : SignedTransaction → FinalExecutionOutcome
  callViewFunction : String → String → List Nat → List Nat
  viewStateRaw : String → String → List (List Nat × List Nat)
  delegatedStake : String → String → Option Int
  validators : List String
  storageAmountPerByte : Int

/-- Modelled from the spec: the external signer (key store plus signing
primitives) reached through the connection. -/
structure Signer where
  getPublicKey : String → Option PublicKey
  signBytes : List Nat → String → SignedTransaction

/-- Modelled from the spec: the externally supplied connection object
bundling network id, provider, and signer. -/
structure Connection where
  networkId : String
  provider : Provider
  signer : Signer

/-- Modelled from the spec: the state of an `Account` instance — the two
readonly fields plus the access-key cache keyed by public-key string. -/
structure AccountState where
  connection : Connection
  accountId : String
  accessKeyByPublicKeyCache : List (String × AccessKeyView)

/-- Modelled from the spec: the constructor `new Account(connection,
accountId)` stores its two arguments and starts with an empty access-key
cache. -/
def mkAccount (c : Connection) (accountId : String) : AccountState :=
  { connection := c, accountId := accountId, accessKeyByPublicKeyCache := [] }

/-- Modelled from the spec: the kinds of local work an operation performs,
recorded as a trace. -/
inductive Step where
  /-- Delegate a call to the JSON-RPC provider. -/
  | rpcCall (method : String)
  /-- Reshape a request or response value. -/
  | reshape
  /-- Read the access-key cache. -/
  | cacheRead
  /-- Write the access-key cache. -/
  | cacheWrite
  /-- Arithmetic on returned balances. -/
  | balanceArith
  /-- Delegate to the external signer. -/
  | signerCall
deriving DecidableEq, Repr

/-- A remote delegation step: a call handed to the provider or signer. -/
def Step.isRemoteDelegation : Step → Bool
  | .rpcCall _ => true
  | .signerCall => true
  | _ => false

/-- A local bookkeeping step: cache access, response reshaping, or balance
arithmetic. -/
def Step.isLocalBookkeeping : Step → Bool
  | .reshape => true
  | .cacheRead => true
  | .cacheWrite => true
  | .balanceArith => true
  | _ => false

/-- Modelled from the spec: the result value of an operation. -/
inductive OpResult where
  | accountView (v : AccountView)
  | signedTx (msg : List Nat) (tx : SignedTransaction)
  | outcome (o : FinalExecutionOutcome)
  | accessKey (pk : PublicKey) (k : AccessKeyView)
  | newAccount (accountId : String)
  | bytes (bs : List Nat)
  | kvPairs (kvs : List (List Nat × List Nat))
  | accessKeyList (ks : List (PublicKey × AccessKeyView))
  | accountDetails (apps : List (String × Int × String))
  | balance (total stateStaked staked available : Int)
  | delegatedStake (staked : List (String × Int)) (failed : List String)
      (total : Int)
  | failure (msg : String)
deriving DecidableEq, Repr

/-- Modelled from the spec: a call to one of the public or protected
operations of `Account`, with its arguments. -/
inductive OpCall where
  | state
  | signTransaction (receiverId : String) (actions : List TxAction)
  | signAndSendTransaction (receiverId : String) (actions : List TxAction)
      (returnError : Bool)
  | findAccessKey (receiverId : String) (actions : List TxAction)
  | createAndDeployContract (contractId : String) (publicKey : PublicKey)
      (data : List Nat) (amount : BN)
  | sendMoney (receiverId : String) (amount : BN)
  | createAccount (newAccountId : String) (publicKey : PublicKey)
      (amount : BN)
  | deleteAccount (beneficiaryId : String)
  | deployContract (data : List Nat)
  | functionCall (contractId methodName : String) (args : List Nat)
      (gas attachedDeposit : BN)
  | addKey (publicKey : PublicKey) (contractId : String)
      (methodNames : List String) (amount : BN)
  | deleteKey (publicKey : PublicKey)
  | stake (publicKey : PublicKey) (amount : BN)
  | viewFunction (contractId methodName : String) (args : List Nat)
  | viewState (pref : String)
  | getAccessKeys
  | getAccountDetails
  | getAccountBalance
  | getActiveDelegatedStakeBalance

/-- Modelled from the spec: serialize a transaction for signing — pure
reshaping of the inputs. -/
def encodeTx (sender receiver : String) (actions : List TxAction)
    (nonce : Nat) : List Nat :=
  sender.length :: receiver.length :: (nonce + 1) ::
    actions.map fun a => a.kind.length

/-- Modelled from the spec: `findAccessKey` consults the signer's public
key, serves from the access-key cache when possible, and otherwise
delegates a `view_access_key` query and caches the response.  Its
`receiverId` and `actions` parameters are currently unused. -/
def findAccessKeyAux (st : AccountState) :
    Option (PublicKey × AccessKeyView) × AccountState × List Step :=
  match st.connection.signer.getPublicKey st.accountId with
  | none => (none, st, [Step.reshape])
  | some pk =>
    match st.accessKeyByPublicKeyCache.lookup pk.keyData with
    | some k => (some (pk, k), st, [Step.cacheRead])
    | none =>
      match st.connection.provider.viewAccessKey st.accountId pk with
      | some k =>
          (some (pk, k),
           { st with accessKeyByPublicKeyCache :=
               (pk.keyData, k) :: st.accessKeyByPublicKeyCache },
           [Step.cacheRead, Step.rpcCall "query view_access_key",
            Step.reshape, Step.cacheWrite])
      | none =>
          (none, st,
           [Step.cacheRead, Step.rpcCall "query view_access_key",
            Step.reshape])

/-- Modelled from the spec: `signTransaction` finds the access key for a
nonce, serializes the transaction, and delegates signing to the external
signer. -/
def signTransactionAux (st : AccountState) (receiverId : String)
    (actions : List TxAction) :
    Option (List Nat × SignedTransaction) × AccountState × List Step :=
  let r := findAccessKeyAux st
  match r.1 with
  | none => (none, r.2.1, r.2.2)
  | some (_, ak) =>
      let msg := encodeTx st.accountId receiverId actions ak.nonce
      let tx := r.2.1.connection.signer.signBytes msg st.accountId
      (some (msg, tx), r.2.1, r.2.2 ++ [Step.reshape, Step.signerCall])

/-- Modelled from the spec: sign a transaction and broadcast it through
the provider. -/
def signAndSendAux (st : AccountState) (receiverId : String)
    (actions : List TxAction) : OpResult × AccountState × List Step :=
  let r := signTransactionAux st receiverId actions
  match r.1 with
  | none => (.failure "no matching key pair found", r.2.1, r.2.2)
  | some (_, tx) =>
      (.outcome (r.2.1.connection.provider.sendTransaction tx), r.2.1,
       r.2.2 ++ [Step.rpcCall "broadcast_tx_commit", Step.reshape])

/-- Modelled from the spec: run one `Account` operation on an account
state, returning the result, the successor state, and the trace of local
work.  Every operation is a thin pass-through: it delegates to the
provider or signer reached via the connection and only reshapes values,
touches the access-key cache, or does arithmetic on returned balances. -/
def runOp : OpCall → AccountState → OpResult × AccountState × List Step
  | .state, st =>
      (.accountView (st.connection.provider.viewAccount st.accountId), st,
       [Step.rpcCall "query view_account", Step.reshape])
  | .signTransaction receiverId actions, st =>
      let r := signTransactionAux st receiverId actions
      (match r.1 with
       | none => .failure "no matching key pair found"
       | some (msg, tx) => .signedTx msg tx, r.2.1, r.2.2)
  | .signAndSendTransaction receiverId actions _, st =>
      signAndSendAux st receiverId actions
  | .findAccessKey _ _, st =>
      let r := findAccessKeyAux st
      (match r.1 with
       | none => .failure "no access key found"
       | some (pk, k) => .accessKey pk k, r.2.1, r.2.2)
  | .createAndDeployContract contractId publicKey data amount, st =>
      let r := signAndSendAux st contractId
        [⟨"CreateAccount"⟩, ⟨"Transfer " ++ toString amount.val⟩,
         ⟨"AddKey " ++ publicKey.keyData⟩,
         ⟨"DeployContract " ++ toString data.length⟩]
      (match r.1 with
       | .outcome _ => .newAccount contractId
       | other => other, r.2.1, r.2.2 ++ [Step.reshape])
  | .sendMoney receiverId amount, st =>
      signAndSendAux st receiverId [⟨"Transfer " ++ toString amount.val⟩]
  | .createAccount newAccountId publicKey amount, st =>
      signAndSendAux st newAccountId
        [⟨"CreateAccount"⟩, ⟨"Transfer " ++ toString amount.val⟩,
         ⟨"AddKey " ++ publicKey.keyData⟩]
  | .deleteAccount beneficiaryId, st =>
      signAndSendAux st st.accountId [⟨"DeleteAccount " ++ beneficiaryId⟩]
  | .deployContract data, st =>
      signAndSendAux st st.accountId
        [⟨"DeployContract " ++ toString data.length⟩]
  | .functionCall contractId methodName args gas attachedDeposit, st =>
      signAndSendAux st contractId
        [⟨"FunctionCall " ++ methodName ++ " " ++ toString args.length ++
          " " ++ toString gas.val ++ " " ++ toString attachedDeposit.val⟩]
  | .addKey publicKey contractId methodNames amount, st =>
      signAndSendAux st st.accountId
        [⟨"AddKey " ++ publicKey.keyData ++ " " ++ contractId ++ " " ++
          toString methodNames.length ++ " " ++ toString amount.val⟩]
  | .deleteKey publicKey, st =>
      signAndSendAux st st.accountId [⟨"DeleteKey " ++ publicKey.keyData⟩]
  | .stake publicKey amount, st =>
      signAndSendAux st st.accountId
        [⟨"Stake " ++ toString amount.val ++ " " ++ publicKey.keyData⟩]
  | .viewFunction contractId methodName args, st =>
      (.bytes (st.connection.provider.callViewFunction contractId
         methodName args), st,
       [Step.reshape, Step.rpcCall "query call_function", Step.reshape])
  | .viewState pref, st =>
      (.kvPairs (st.connection.provider.viewStateRaw st.accountId pref), st,
       [Step.rpcCall "query view_state", Step.reshape])
  | .getAccessKeys, st =>
      (.accessKeyList (st.connection.provider.viewAccessKeyList
         st.accountId), st,
       [Step.rpcCall "query view_access_key_list", Step.reshape])
  | .getAccountDetails, st =>
      (.accountDetails
         ((st.connection.provider.viewAccessKeyList st.accountId).filterMap
           fun pk_k => match pk_k.2.permission with
             | .functionCall receiverId allowance =>
                 some (receiverId, allowance, pk_k.1.keyData)
             | .fullAccess => none), st,
       [Step.rpcCall "query view_access_key_list", Step.reshape])
  | .getAccountBalance, st =>
      let protocolPerByte := st.connection.provider.storageAmountPerByte
      let v := st.connection.provider.viewAccount st.accountId
      let stateStaked := v.storageUsage * protocolPerByte
      let staked := v.locked
      let totalBalance := v.amount + v.locked
      let availableBalance := totalBalance - max staked stateStaked
      (.balance totalBalance stateStaked staked availableBalance, st,
       [Step.rpcCall "EXPERIMENTAL_protocol_config",
        Step.rpcCall "query view_account", Step.balanceArith])
  | .getActiveDelegatedStakeBalance, st =>
      let vs := st.connection.provider.validators
      let stakedList := vs.filterMap fun v =>
        (st.connection.provider.delegatedStake v st.accountId).map
          fun amt => (v, amt)
      let failedList := vs.filter fun v =>
        (st.connection.provider.delegatedStake v st.accountId).isNone
      (.delegatedStake stakedList failedList
         (stakedList.foldl (fun acc sv => acc + sv.2) 0), st,
       [Step.rpcCall "validators",
        Step.rpcCall "query call_function", Step.reshape,
        Step.balanceArith])

/-- Helper: `findAccessKeyAux` changes at most the access-key cache — the
connection and account id are preserved. -/
theorem findAccessKeyAux_frame (st : AccountState) :
    (findAccessKeyAux st).2.1.connection = st.connection ∧
    (findAccessKeyAux st).2.1.accountId = st.accountId := by
  unfold findAccessKeyAux
  split
  · exact ⟨rfl, rfl⟩
  · split
    · exact ⟨rfl, rfl⟩
    · split <;> exact ⟨rfl, rfl⟩

/-- Helper: `signTransactionAux` preserves the connection and account
id. -/
theorem signTransactionAux_frame (st : AccountState) (receiverId : String)
    (actions : List TxAction) :
    (signTransactionAux st receiverId actions).2.1.connection =
      st.connection ∧
    (signTransactionAux st receiverId actions).2.1.accountId =
      st.accountId := by
  simp only [signTransactionAux]
  split <;> exact findAccessKeyAux_frame st

/-- Helper: `signAndSendAux` preserves the connection and account id. -/
theorem signAndSendAux_frame (st : AccountState) (receiverId : String)
    (actions : List TxAction) :
    (signAndSendAux st receiverId actions).2.1.connection =
      st.connection ∧
    (signAndSendAux st receiverId actions).2.1.accountId =
      st.accountId := by
  simp only [signAndSendAux]
  split <;> exact signTransactionAux_frame st receiverId actions

/-- Helper: every operation preserves the connection and account id — only
the access-key cache can change. -/
theorem runOp_frame (c : OpCall) (st : AccountState) :
    (runOp c st).2.1.connection = st.connection ∧
    (runOp c st).2.1.accountId = st.accountId := by
  cases c with
  | state => exact ⟨rfl, rfl⟩
  | signTransaction receiverId actions =>
      exact signTransactionAux_frame st receiverId actions
  | signAndSendTransaction receiverId actions returnError =>
      exact signAndSendAux_frame st receiverId actions
  | findAccessKey receiverId actions => exact findAccessKeyAux_frame st
  | createAndDeployContract contractId publicKey data amount =>
      exact signAndSendAux_frame st contractId _
  | sendMoney receiverId amount => exact signAndSendAux_frame st receiverId _
  | createAccount newAccountId publicKey amount =>
      exact signAndSendAux_frame st newAccountId _
  | deleteAccount beneficiaryId => exact signAndSendAux_frame st st.accountId _
  | deployContract data => exact signAndSendAux_frame st st.accountId _
  | functionCall contractId methodName args gas attachedDeposit =>
      exact signAndSendAux_frame st contractId _
  | addKey publicKey contractId methodNames amount =>
      exact signAndSendAux_frame st st.accountId _
  | deleteKey publicKey => exact signAndSendAux_frame st st.accountId _
  | stake publicKey amount => exact signAndSendAux_frame st st.accountId _
  | viewFunction contractId methodName args => exact ⟨rfl, rfl⟩
  | viewState pref => exact ⟨rfl, rfl⟩
  | getAccessKeys => exact ⟨rfl, rfl⟩
  | getAccountDetails => exact ⟨rfl, rfl⟩
  | getAccountBalance => exact ⟨rfl, rfl⟩
  | getActiveDelegatedStakeBalance => exact ⟨rfl, rfl⟩

/-- Helper: every step of the model's local-work vocabulary is either a
remote delegation or local bookkeeping. -/
theorem step_classified (s : Step) :
    (s.isRemoteDelegation || s.isLocalBookkeeping) = true := by
  cases s <;> rfl

/-! ### The claims -/

/-- The method names claim C2 enumerates, in the order of the claim. -/
def c2MethodNames : List String :=
  ["state", "signTransaction", "signAndSendTransaction", "findAccessKey",
   "createAndDeployContract", "sendMoney", "createAccount", "deleteAccount",
   "deployContract", "functionCall", "addKey", "deleteKey", "stake",
   "viewFunction", "viewState", "getAccessKeys", "getAccountDetails",
   "getAccountBalance", "getActiveDelegatedStakeBalance"]

/-- Whether the member list declares the mutable (non-readonly) cache
field `accessKeyByPublicKeyCache` with index-signature type
`[key: string]: AccessKeyView`. -/
def declaresCacheField (ms : List Member) : Bool :=
  ms.any fun m =>
    decide (m = Member.field "accessKeyByPublicKeyCache"
      (TsType.indexSig (TsType.named "string") (TsType.named "AccessKeyView"))
      false Visibility.pub)

/-- The four record types claim C5 is about. -/
def c5RecordNames : List String :=
  ["AccountBalance", "AccountAuthorizedApp", "StakedBalance",
   "ActiveDelegatedStakeBalance"]

/-- The five advertised remote-procedure families of claim C7, as the
method names the claim assigns to each family. -/
def c7Families : List (List String) :=
  [["state"],
   ["signTransaction", "signAndSendTransaction"],
   ["findAccessKey", "addKey", "deleteKey", "getAccessKeys"],
   ["stake"],
   ["getAccountBalance", "getActiveDelegatedStakeBalance"]]

/-- The state-changing methods claim C9 lists as resolving to
`FinalExecutionOutcome`. -/
def c9OutcomeMethods : List String :=
  ["signAndSendTransaction", "sendMoney", "createAccount", "deleteAccount",
   "deployContract", "functionCall", "addKey", "deleteKey", "stake"]

/-- C1: every public operation of `Account` is a thin pass-through to the
JSON-RPC provider reached via the connection — the declaration file
carries no implementation body for any member (only the interface), and in
the spec-modelled semantics every step of every operation's local work is
either a remote delegation (to the provider or signer) or bookkeeping
(cache access, response reshaping, balance arithmetic). -/
theorem C1_operations_are_passthrough_interface_only :
    (AccountDts.accountMembers.all fun m => !m.declaresBody) = true ∧
    fileHasImplementation AccountDts.accountDts = false ∧
    ∀ (c : OpCall) (st : AccountState),
      ((runOp c st).2.2.all fun s =>
        s.isRemoteDelegation || s.isLocalBookkeeping) = true := by
  refine ⟨rfl, rfl, fun c st => ?_⟩
  exact List.all_eq_true.mpr fun s _ => step_classified s

/-- C2: the nineteen methods the claim enumerates are exactly the methods
declared on `Account`, in source order; each has a `Promise` return type;
and no method of the class declares a cancellation or
concurrency-coordination parameter. -/
theorem C2_methods_are_single_shot_async_calls :
    methodNames AccountDts.accountMembers = c2MethodNames ∧
    (c2MethodNames.all fun nm =>
      methodReturnsPromise AccountDts.accountMembers nm) = true ∧
    (AccountDts.accountMembers.all fun m =>
      m.methodParams.all fun pa => !pa.isCancellation) = true :=
  ⟨rfl, rfl, rfl⟩

/-- C3: the only mutable field declared on `Account` is
`accessKeyByPublicKeyCache`, an index-signature cache from public-key
strings to `AccessKeyView`; `connection` and `accountId` are declared
`readonly`; and in the spec-modelled semantics every operation leaves
`connection` and `accountId` unchanged. -/
theorem C3_only_mutable_state_is_access_key_cache :
    mutableFieldNames AccountDts.accountMembers =
      ["accessKeyByPublicKeyCache"] ∧
    declaresCacheField AccountDts.accountMembers = true ∧
    hasReadonlyField AccountDts.accountMembers "connection"
      (TsType.named "Connection") = true ∧
    hasReadonlyField AccountDts.accountMembers "accountId"
      (TsType.named "string") = true ∧
    ∀ (c : OpCall) (st : AccountState),
      (runOp c st).2.1.connection = st.connection ∧
      (runOp c st).2.1.accountId = st.accountId :=
  ⟨rfl, rfl, rfl, rfl, runOp_frame⟩

/-- C4 counterexample: the claim "no type declared in this file encodes an
error case or error-handling configuration" is false — computing the check
over the transcribed file finds error-encoding field names (`error` on
`StakedBalance`, `returnError` on `SignAndSendTransactionOptions`). -/
theorem C4_counterexample_error_fields_exist :
    noTypeEncodesError AccountDts.accountDts = false := by rfl

/-- C4 (amended): the file declares no error taxonomy — no interface or
class of the file is a dedicated error type — but two declared types do
encode error information: `StakedBalance` has an optional `error` field
and `SignAndSendTransactionOptions` has an optional `returnError`
error-handling flag. -/
theorem C4_no_error_taxonomy_but_error_fields :
    declaresErrorTaxonomy AccountDts.accountDts = false ∧
    ifaceHasField AccountDts.accountDts "StakedBalance" "error" = true ∧
    ifaceHasField AccountDts.accountDts "SignAndSendTransactionOptions"
      "returnError" = true :=
  ⟨rfl, rfl, rfl⟩

/-- C5: `AccountBalance`, `AccountAuthorizedApp`, `StakedBalance`, and
`ActiveDelegatedStakeBalance` are flat value records: each is an interface
with no base type whose every field is flat data (named types, arrays, or
unions of those — no callbacks, no methods, no behavior). -/
theorem C5_balance_records_are_flat_value_records :
    (c5RecordNames.all fun nm =>
      isFlatValueRecord AccountDts.accountDts nm) = true := rfl

/-- C6: the file declares exactly one class, named `Account`; it declares
19 (≈ 20) method signatures; and its constructor receives the connection
externally as its first parameter (typed `Connection`), together with the
account id. -/
theorem C6_single_class_with_external_connection :
    classDecls AccountDts.accountDts = [AccountDts.accountClassDecl] ∧
    Decl.className AccountDts.accountClassDecl = some "Account" ∧
    (methodNames AccountDts.accountMembers).length = 19 ∧
    ctorParams AccountDts.accountMembers =
      [[AccountDts.p "connection" (TsType.named "Connection"),
        AccountDts.p "accountId" (TsType.named "string")]] :=
  ⟨rfl, rfl, rfl, rfl⟩

/-- C7: the `Account` class declares method signatures covering each of
the five advertised remote-procedure families — viewing account state,
signing and submitting transactions, managing access keys, staking, and
querying balances: every method name of every family is declared. -/
theorem C7_covers_five_rpc_families :
    (c7Families.all fun fam => fam.all fun nm =>
      (methodByName AccountDts.accountMembers nm).isSome) = true := rfl

/-- C8: for every connection `c` and account-id `a`, the account built by
the constructor has `connection = c` and `accountId = a`, and (both fields
being readonly) no operation of the class changes either field. -/
theorem C8_constructor_stores_connection_and_account_id :
    ∀ (c : Connection) (a : String),
      (mkAccount c a).connection = c ∧ (mkAccount c a).accountId = a ∧
      ∀ (op : OpCall),
        (runOp op (mkAccount c a)).2.1.connection = c ∧
        (runOp op (mkAccount c a)).2.1.accountId = a := by
  intro c a
  exact ⟨rfl, rfl, fun op => runOp_frame op (mkAccount c a)⟩

/-- C9: every state-changing method the claim lists resolves to
`Promise<FinalExecutionOutcome>`, and `createAndDeployContract` alone
resolves to `Promise<Account>`. -/
theorem C9_state_changing_methods_return_final_execution_outcome :
    (c9OutcomeMethods.all fun nm =>
      decide (methodRet AccountDts.accountMembers nm =
        some (TsType.promise (TsType.named "FinalExecutionOutcome")))) =
      true ∧
    methodRet AccountDts.accountMembers "createAndDeployContract" =
      some (TsType.promise (TsType.named "Account")) :=
  ⟨rfl, rfl⟩

/-- C10: in the spec-modelled semantics (the declaration documents
`receiverId` and `actions` as currently unused), the entire observable
behavior of `findAccessKey` — result, successor state, and trace — is
identical for any two argument pairs on the same account state. -/
theorem C10_find_access_key_ignores_receiver_and_actions :
    ∀ (st : AccountState) (r1 r2 : String) (a1 a2 : List TxAction),
      runOp (OpCall.findAccessKey r1 a1) st =
        runOp (OpCall.findAccessKey r2 a2) st := by
  intro st r1 r2 a1 a2
  rfl
